import Mathlib

/-!
# Class factory and COM entry points of the WebP WIC codec (`src/main.cpp`)

A shallow embedding of the object-factory and reference-counting protocol of
`main.cpp`: the two process-wide counters, `MyClassFactory` with its
`QueryInterface`, `CreateInstance` and `LockServer`, `CreateComObject`, and the
entry points `DllGetClassObject` and `DllCanUnloadNow`.

Conventions of the embedding.

* `LONG` and `HRESULT` are 32-bit signed machine integers: a `LONG` is carried as
  an `Int` and every interlocked update wraps explicitly (`wrapLONG`).
* A pointer is `Option Nat` (`none` is `NULL`, `some a` is the heap address `a`).
* An output parameter `void** ppv` is `Option PVOID`: `none` when the caller
  passes `NULL`, `some v` when the caller passes the address of a cell that
  currently holds `v`.  Every call returns the cell's content after the call.
* `new (std::nothrow)` takes a boolean `mem` telling whether the allocation
  succeeds; a successful allocation uses the next free heap address.
* A function pointer of type `ObjectConstructor` is represented by the class `T`
  of the instantiation `CreateComObject<T>` it points to, the only constructors
  the program defines.
-/

namespace WebpWic

/-! ## Machine integers and Windows constants -/

/-- Largest `LONG`. -/
def LONG_MAX : Int := 2147483647

/-- Smallest `LONG`. -/
def LONG_MIN : Int := -2147483648

/-- Reduction of an integer to the 32-bit two's complement range. -/
def wrapLONG (x : Int) : Int := (x + 2147483648) % 4294967296 - 2147483648

/-- The value is representable as a `LONG`. -/
def isLONG (x : Int) : Prop := LONG_MIN ≤ x ∧ x ≤ LONG_MAX

instance (x : Int) : Decidable (isLONG x) := by
  unfold isLONG; infer_instance

/-- Win32 `InterlockedIncrement`: the new value of the variable (32-bit wrapping). -/
def InterlockedIncrement (v : Int) : Int := wrapLONG (v + 1)

/-- Win32 `InterlockedDecrement`: the new value of the variable (32-bit wrapping). -/
def InterlockedDecrement (v : Int) : Int := wrapLONG (v - 1)

/-- A COM result code, a 32-bit signed integer. -/
abbrev HRESULT := Int

/-- `S_OK` is `0x00000000`. -/
def S_OK : HRESULT := 0
/-- `S_FALSE` is `0x00000001`. -/
def S_FALSE : HRESULT := 1
/-- `E_INVALIDARG` is `0x80070057`. -/
def E_INVALIDARG : HRESULT := -2147024809
/-- `E_OUTOFMEMORY` is `0x8007000E`. -/
def E_OUTOFMEMORY : HRESULT := -2147024882
/-- `E_NOINTERFACE` is `0x80004002`. -/
def E_NOINTERFACE : HRESULT := -2147467262
/-- `E_UNEXPECTED` is `0x8000FFFF`. -/
def E_UNEXPECTED : HRESULT := -2147418113
/-- `CLASS_E_NOAGGREGATION` is `0x80040110`. -/
def CLASS_E_NOAGGREGATION : HRESULT := -2147221232
/-- `CLASS_E_CLASSNOTAVAILABLE` is `0x80040111`. -/
def CLASS_E_CLASSNOTAVAILABLE : HRESULT := -2147221231

/-- The `FAILED` macro: the severity bit is set. -/
def FAILED (hr : HRESULT) : Bool := decide (hr < 0)

/-- Win32 `BOOL` is an `int`; `TRUE` is 1. -/
def TRUE : Int := 1
/-- Win32 `FALSE` is 0. -/
def FALSE : Int := 0

/-- A 128-bit identifier; `Data4` packs the last eight bytes. -/
structure GUID where
  Data1 : Nat
  Data2 : Nat
  Data3 : Nat
  Data4 : Nat
  deriving DecidableEq, Repr

/-- `IsEqualGUID`: exact equality of the identifiers. -/
def IsEqualGUID (a b : GUID) : Bool := decide (a = b)

/-- `IID_IUnknown` is `{00000000-0000-0000-C000-000000000046}`. -/
def IID_IUnknown : GUID := ⟨0, 0, 0, 0xC000000000000046⟩

/-- `IID_IClassFactory` is `{00000001-0000-0000-C000-000000000046}`. -/
def IID_IClassFactory : GUID := ⟨1, 0, 0, 0xC000000000000046⟩

/-- A pointer: `none` is `NULL`, `some a` the heap address `a`. -/
abbrev PVOID := Option Nat

/-! ## Objects, heap and process state -/

/-- Modelled from the spec: a constructible class `T` (such as `DecodeContainer`,
declared in `decode_container.h`, which is not available).  The spec gives a
constructed object a closed set of capabilities it answers to; `supports` lists
the interface identifiers its `QueryInterface` accepts. -/
structure ComClass where
  supports : List GUID
  deriving DecidableEq, Repr

/-- The function pointer type `ObjectConstructor`: a pointer to
`CreateComObject<T>`, represented by `T`. -/
abbrev ObjectConstructor := ComClass

/-- The data members of `class MyClassFactory` (lines 125-127).  The private member
`ref_count_` is written by the constructor and read nowhere in `main.cpp`; the
count that `AddRef` and `Release` work on belongs to the base class. -/
structure MyClassFactory where
  ref_count_ : Int
  ctor_ : ObjectConstructor
  deriving DecidableEq, Repr

/-- Modelled from the spec: an object produced by a construction capability, with
its class and its own reference count. -/
structure ComObject where
  cls : ComClass
  ref_count_ : Int
  deriving DecidableEq, Repr

/-- One heap cell: a live factory, a live constructed object, or destroyed storage.
A factory cell holds the reference count kept by its base class
`ComObjectBase<IClassFactory>` next to the members of `MyClassFactory`. -/
inductive HeapCell where
  | factory (base_ref_count : Int) (f : MyClassFactory)
  | object (o : ComObject)
  | freed
  deriving DecidableEq, Repr

/-- The process state: the two counters of `main.cpp` and the heap of COM objects. -/
structure State where
  MAIN_nObjects : Int
  MAIN_nServerLocks : Int
  heap : List HeapCell
  deriving DecidableEq, Repr

/-- The state at load time: `MAIN_nObjects = 0`, `MAIN_nServerLocks = 0`, no object. -/
def State.initial : State := ⟨0, 0, []⟩

/-- The cell at an address (storage never allocated reads as destroyed). -/
def State.cell (s : State) (p : Nat) : HeapCell := s.heap.getD p HeapCell.freed

/-- Overwrite the cell at an address. -/
def State.setCell (s : State) (p : Nat) (c : HeapCell) : State :=
  { s with heap := s.heap.set p c }

/-- Place a new cell at the next free address and return that address. -/
def State.alloc (s : State) (c : HeapCell) : Nat × State :=
  (s.heap.length, { s with heap := s.heap ++ [c] })

/-- The outcome of a call with an output parameter: the result code, the content
of the caller's output cell after the call (`none` when the caller passed no
cell), and the state after the call. -/
structure Call where
  hr : HRESULT
  out : Option PVOID
  st : State
  deriving DecidableEq, Repr

/-! ## Reference counting (`ComObjectBase`, declared outside `main.cpp`) -/

/-- Modelled from the spec: the destructor of a COM object; `ComObjectBase` is
declared in a header that is not available.  The spec says that every factory
or object destruction decrements ObjectCount exactly once. -/
def ComObjectBase.destroy (this : Nat) (s : State) : State :=
  { s.setCell this HeapCell.freed with
    MAIN_nObjects := InterlockedDecrement s.MAIN_nObjects }

/-- Modelled from the spec: the constructor of the base class
`ComObjectBase<IClassFactory>`, defined outside `main.cpp`; it runs before the body
of the constructor of `MyClassFactory`.  The spec has the factory that
`getClassFactory` hands out hold reference count 1, as every produced object holds
its construction reference, and has ObjectCount incremented exactly once per
constructed factory, which line 131 does: the base is born with count 1 and leaves
the counters alone.  The result is the initial count and the state. -/
def ComObjectBase.construct (s : State) : Int × State := (1, s)

/-- Modelled from the spec: `ComObjectBase::AddRef`, defined outside `main.cpp`.  The spec
describes it as the atomic increment of the object's own reference count, which for
a factory is the count of its base class (the private member
`MyClassFactory::ref_count_` is out of the base's reach and is left alone).  The
result is the new count.  A call on destroyed storage has no defined behaviour in
C++; it is a no-op here. -/
def ComObjectBase.AddRef (this : Nat) (s : State) : Int × State :=
  match s.cell this with
  | HeapCell.factory c f =>
    let r := InterlockedIncrement c
    (r, s.setCell this (HeapCell.factory r f))
  | HeapCell.object o =>
    let r := InterlockedIncrement o.ref_count_
    (r, s.setCell this (HeapCell.object { o with ref_count_ := r }))
  | HeapCell.freed => (0, s)

/-- Modelled from the spec: `ComObjectBase::Release`, defined outside `main.cpp`.  The spec
describes it as the atomic decrement of the object's own reference count; when the
count reaches zero the object is destroyed and ObjectCount is decremented.  The
result is the new count.  A call on destroyed storage is a no-op here. -/
def ComObjectBase.Release (this : Nat) (s : State) : Int × State :=
  match s.cell this with
  | HeapCell.factory c f =>
    let r := InterlockedDecrement c
    if r = 0 then (r, ComObjectBase.destroy this s)
    else (r, s.setCell this (HeapCell.factory r f))
  | HeapCell.object o =>
    let r := InterlockedDecrement o.ref_count_
    if r = 0 then (r, ComObjectBase.destroy this s)
    else (r, s.setCell this (HeapCell.object { o with ref_count_ := r }))
  | HeapCell.freed => (0, s)

/-! ## Construction -/

/-- Modelled from the spec: the expression `new (std::nothrow) T()` for a
constructible class `T`, whose constructor is defined outside `main.cpp`.  By the spec a
produced object increments ObjectCount exactly once when it is constructed and is
born holding the single construction reference that `CreateInstance` releases
after its query.  A failed allocation runs no constructor and yields `NULL`. -/
def ComClass.new (T : ComClass) (mem : Bool) (s : State) : PVOID × State :=
  if mem then
    let s1 := { s with MAIN_nObjects := InterlockedIncrement s.MAIN_nObjects }
    let (p, s2) := s1.alloc (HeapCell.object { cls := T, ref_count_ := 1 })
    (some p, s2)
  else (none, s)

/-- `CreateComObject<T>` (lines 104-111): the result code, the value stored in
`*output` (when one is stored) and the state afterwards. -/
def CreateComObject (T : ComClass) (mem : Bool) (s : State) : HRESULT × PVOID × State :=
  match T.new mem s with
  | (none, s1) => (E_OUTOFMEMORY, none, s1)
  | (some result, s1) => (S_OK, some result, s1)

/-- `MyClassFactory::MyClassFactory(ObjectConstructor ctor)` (lines 130-134), run on
freshly allocated storage after the constructor of the base class: increments
`MAIN_nObjects`, sets the member `ref_count_ = 0` and stores the constructor.
Returns the address of the new factory. -/
def MyClassFactory.construct (ctor : ObjectConstructor) (s : State) : Nat × State :=
  let (c, s0) := ComObjectBase.construct s
  let s1 := { s0 with MAIN_nObjects := InterlockedIncrement s0.MAIN_nObjects }
  s1.alloc (HeapCell.factory c { ref_count_ := 0, ctor_ := ctor })

/-- The expression `new (std::nothrow) MyClassFactory(ctor)`: `NULL` without
running the constructor when the allocation fails. -/
def MyClassFactory.new (ctor : ObjectConstructor) (mem : Bool) (s : State) : PVOID × State :=
  if mem then
    let (p, s1) := MyClassFactory.construct ctor s
    (some p, s1)
  else (none, s)

/-! ## `IUnknown` on heap objects -/

/-- `MyClassFactory::QueryInterface` (lines 136-147). -/
def MyClassFactory.QueryInterface (this : Nat) (riid : GUID) (ppvObject : Option PVOID)
    (s : State) : Call :=
  match ppvObject with
  | none => ⟨E_INVALIDARG, none, s⟩
  | some _ =>
    if !IsEqualGUID riid IID_IUnknown && !IsEqualGUID riid IID_IClassFactory then
      ⟨E_NOINTERFACE, some none, s⟩
    else
      let (_, s1) := ComObjectBase.AddRef this s
      ⟨S_OK, some (some this), s1⟩

/-- Modelled from the spec: `QueryInterface` of a constructed object, whose class is
defined outside `main.cpp`.  The spec describes a lookup answering either a reference or
"unsupported", leaving no output reference in the latter case; the shape follows
`MyClassFactory::QueryInterface`, with the accepted identifiers taken from the
class. -/
def ComObject.QueryInterface (this : Nat) (o : ComObject) (riid : GUID)
    (ppvObject : Option PVOID) (s : State) : Call :=
  match ppvObject with
  | none => ⟨E_INVALIDARG, none, s⟩
  | some _ =>
    if !o.cls.supports.contains riid then
      ⟨E_NOINTERFACE, some none, s⟩
    else
      let (_, s1) := ComObjectBase.AddRef this s
      ⟨S_OK, some (some this), s1⟩

/-- Virtual call `p->QueryInterface(riid, ppvObject)` on the object at address
`this`.  A call on destroyed storage has no defined behaviour in C++; here it
fails without touching anything. -/
def IUnknown.QueryInterface (this : Nat) (riid : GUID) (ppvObject : Option PVOID)
    (s : State) : Call :=
  match s.cell this with
  | HeapCell.factory _ _ => MyClassFactory.QueryInterface this riid ppvObject s
  | HeapCell.object o => ComObject.QueryInterface this o riid ppvObject s
  | HeapCell.freed => ⟨E_UNEXPECTED, ppvObject, s⟩

/-- Virtual call `p->Release()`; `MyClassFactory::Release` (line 120) forwards to
`ComObjectBase::Release`. -/
def IUnknown.Release (this : Nat) (s : State) : Int × State :=
  ComObjectBase.Release this s

/-- Virtual call `p->AddRef()`; `MyClassFactory::AddRef` (line 119) forwards to
`ComObjectBase::AddRef`. -/
def IUnknown.AddRef (this : Nat) (s : State) : Int × State :=
  ComObjectBase.AddRef this s

/-! ## `IClassFactory` -/

/-- `MyClassFactory::CreateInstance` (lines 149-171).  `this` is the factory the
method is called on; only its `ctor_` member is read.  `mem` tells whether the
allocation inside the bound constructor succeeds. -/
def MyClassFactory.CreateInstance (this : MyClassFactory) (mem : Bool) (pUnkOuter : PVOID)
    (riid : GUID) (ppvObject : Option PVOID) (s : State) : Call :=
  match ppvObject with
  | none => ⟨E_INVALIDARG, none, s⟩
  | some _ =>
    -- *ppvObject = NULL;
    if pUnkOuter ≠ none then ⟨CLASS_E_NOAGGREGATION, some none, s⟩
    else
      -- ret = ctor_(&output);
      let (ret, output, s1) := CreateComObject this.ctor_ mem s
      if FAILED ret then ⟨ret, some none, s1⟩
      else
        match output with
        | none =>
          -- not reached: `CreateComObject` stores `*output` whenever it succeeds
          ⟨ret, some none, s1⟩
        | some output =>
          let q := IUnknown.QueryInterface output riid (some none) s1
          let (_, s3) := IUnknown.Release output q.st
          -- `if (FAILED(ret)) ppvObject = NULL;` assigns the local pointer
          -- variable only: the caller's cell keeps what the query stored.
          ⟨q.hr, q.out, s3⟩

/-- `MyClassFactory::LockServer` (lines 173-180). -/
def MyClassFactory.LockServer (fLock : Int) (s : State) : HRESULT × State :=
  if fLock ≠ 0 then
    (S_OK, { s with MAIN_nServerLocks := InterlockedIncrement s.MAIN_nServerLocks })
  else
    (S_OK, { s with MAIN_nServerLocks := InterlockedDecrement s.MAIN_nServerLocks })

/-! ## Entry points -/

/-- `DllGetClassObject` (lines 239-257).  `CLSID_WebpWICDecoder` (declared in
`uuid.h`) and the class `DecodeContainer` (declared in `decode_container.h`) are
defined outside `main.cpp` and are parameters; `mem` tells whether the allocation of the
factory succeeds. -/
def DllGetClassObject (CLSID_WebpWICDecoder : GUID) (DecodeContainer : ComClass)
    (mem : Bool) (clsid iid : GUID) (ppv : Option PVOID) (s : State) : Call :=
  match ppv with
  | none => ⟨E_INVALIDARG, none, s⟩
  | some _ =>
    -- *ppv = NULL;
    if !IsEqualGUID iid IID_IClassFactory then ⟨E_INVALIDARG, some none, s⟩
    else if IsEqualGUID clsid CLSID_WebpWICDecoder then
      match MyClassFactory.new DecodeContainer mem s with
      | (none, s1) => ⟨E_OUTOFMEMORY, some none, s1⟩
      | (some p, s1) => ⟨S_OK, some (some p), s1⟩
    else ⟨CLASS_E_CLASSNOTAVAILABLE, some none, s⟩

/-- `DllCanUnloadNow` (lines 259-264): the result and the state afterwards. -/
def DllCanUnloadNow (s : State) : HRESULT × State :=
  if s.MAIN_nObjects == 0 && s.MAIN_nServerLocks == 0 then (S_OK, s)
  else (S_FALSE, s)

/-! ## Call sequences used by the statements -/

/-- A sequence of `LockServer` calls, one per element of `fs`, in order. -/
def lockServerCalls (fs : List Int) (s : State) : State :=
  fs.foldl (fun st f => (MyClassFactory.LockServer f st).2) s

/-- The argument list of `N` calls `LockServer(TRUE)` followed by `N` calls
`LockServer(FALSE)`. -/
def lockThenUnlock (N : Nat) : List Int :=
  List.replicate N TRUE ++ List.replicate N FALSE

/-- One construct/release pair in progress on its own thread: the number of steps
already performed and the local pointer `output` of `CreateInstance`, which is also
the reference the caller receives. -/
structure PairThread where
  pc : Nat
  output : PVOID
  deriving DecidableEq, Repr

/-- The next atomic step of a construct/release pair on the factory at `fac`.  The
successful `CreateInstance` call is the first three steps, in the order of lines
162-166: the bound constructor `ctor_(&output)`, then `output->QueryInterface`,
then `output->Release()`; the fourth step is the caller's `Release` on the object
it received.  Each step makes at most one interlocked update of `MAIN_nObjects`;
its other effects are on the thread's own object.  A finished pair does nothing. -/
def PairThread.step (fac : Nat) (riid : GUID) (t : PairThread) (s : State) :
    PairThread × State :=
  if t.pc = 0 then
    match s.cell fac with
    | HeapCell.factory _ f =>
      let r := CreateComObject f.ctor_ true s
      (⟨1, r.2.1⟩, r.2.2)
    | _ => (t, s)
  else
    match t.output with
    | none => (t, s)
    | some obj =>
      if t.pc = 1 then (⟨2, some obj⟩, (IUnknown.QueryInterface obj riid (some none) s).st)
      else if t.pc = 2 then (⟨3, some obj⟩, (IUnknown.Release obj s).2)
      else if t.pc = 3 then (⟨4, some obj⟩, (IUnknown.Release obj s).2)
      else (t, s)

theorem wrapLONG_of_isLONG (x : Int) (h : isLONG x) : wrapLONG x = x := by
  unfold isLONG LONG_MIN LONG_MAX at h
  unfold wrapLONG
  omega

theorem InterlockedIncrement_of_lt (v : Int) (h1 : LONG_MIN ≤ v) (h2 : v < LONG_MAX) :
    InterlockedIncrement v = v + 1 := by
  unfold LONG_MIN at h1
  unfold LONG_MAX at h2
  unfold InterlockedIncrement wrapLONG
  omega

theorem InterlockedDecrement_of_gt (v : Int) (h1 : LONG_MIN < v) (h2 : v ≤ LONG_MAX) :
    InterlockedDecrement v = v - 1 := by
  unfold LONG_MIN at h1
  unfold LONG_MAX at h2
  unfold InterlockedDecrement wrapLONG
  omega

theorem InterlockedDecrement_Increment (v : Int) (h : isLONG v) :
    InterlockedDecrement (InterlockedIncrement v) = v := by
  unfold isLONG LONG_MIN LONG_MAX at h
  unfold InterlockedDecrement InterlockedIncrement wrapLONG
  omega

/-! ## Heap bookkeeping -/

theorem cell_append_last (a b : Int) (h : List HeapCell) (c : HeapCell) :
    State.cell ⟨a, b, h ++ [c]⟩ h.length = c := by
  simp [State.cell, List.getD]

theorem setCell_append_last (a b : Int) (h : List HeapCell) (c d : HeapCell) :
    State.setCell ⟨a, b, h ++ [c]⟩ h.length d = ⟨a, b, h ++ [d]⟩ := by
  simp [State.setCell]

theorem CreateComObject_mem (T : ComClass) (s : State) :
    CreateComObject T true s =
      (S_OK, some s.heap.length,
        ⟨InterlockedIncrement s.MAIN_nObjects, s.MAIN_nServerLocks,
          s.heap ++ [HeapCell.object ⟨T, 1⟩]⟩) := by
  simp [CreateComObject, ComClass.new, State.alloc]

theorem CreateComObject_no_mem (T : ComClass) (s : State) :
    CreateComObject T false s = (E_OUTOFMEMORY, none, s) := by
  simp [CreateComObject, ComClass.new]

theorem CreateComObject_ok_mem (T : ComClass) (mem : Bool) (s : State)
    (h : (CreateComObject T mem s).1 = S_OK) : mem = true := by
  cases mem with
  | true => rfl
  | false =>
    rw [CreateComObject_no_mem] at h
    have hne : E_OUTOFMEMORY ≠ S_OK := by decide
    exact absurd h hne

/-- The whole of `CreateInstance` on the path where the allocation succeeds and the
constructed object does not answer to the requested interface. -/
theorem CreateInstance_unsupported_eval (this : MyClassFactory) (riid : GUID) (v : PVOID)
    (s : State) (hriid : this.ctor_.supports.contains riid = false) :
    MyClassFactory.CreateInstance this true none riid (some v) s =
      ⟨E_NOINTERFACE, some none,
        ⟨InterlockedDecrement (InterlockedIncrement s.MAIN_nObjects), s.MAIN_nServerLocks,
          s.heap ++ [HeapCell.freed]⟩⟩ := by
  have h10 : InterlockedDecrement 1 = 0 := by decide
  have hS : FAILED S_OK = false := by decide
  simp only [MyClassFactory.CreateInstance, CreateComObject_mem, hS, IUnknown.QueryInterface,
    cell_append_last, ComObject.QueryInterface, hriid, IUnknown.Release, ComObjectBase.Release,
    h10, ComObjectBase.destroy, setCell_append_last]
  simp [cell_append_last, setCell_append_last, h10]

/-- The whole of `CreateInstance` on the path where the allocation succeeds and the
constructed object answers to the requested interface. -/
theorem CreateInstance_supported_eval (this : MyClassFactory) (riid : GUID) (v : PVOID)
    (s : State) (hriid : this.ctor_.supports.contains riid = true) :
    MyClassFactory.CreateInstance this true none riid (some v) s =
      ⟨S_OK, some (some s.heap.length),
        ⟨InterlockedIncrement s.MAIN_nObjects, s.MAIN_nServerLocks,
          s.heap ++ [HeapCell.object ⟨this.ctor_, 1⟩]⟩⟩ := by
  have h12 : InterlockedIncrement 1 = 2 := by decide
  have h21 : InterlockedDecrement 2 = 1 := by decide
  have hS : FAILED S_OK = false := by decide
  simp only [MyClassFactory.CreateInstance, CreateComObject_mem, hS, IUnknown.QueryInterface,
    cell_append_last, ComObject.QueryInterface, hriid, IUnknown.Release, ComObjectBase.Release,
    ComObjectBase.AddRef, h12, h21, ComObjectBase.destroy, setCell_append_last]
  simp [cell_append_last, setCell_append_last, h21]

/-- C1: for every value of the two counters `DllCanUnloadNow` returns `S_OK` exactly
when `MAIN_nObjects == 0` and `MAIN_nServerLocks == 0`, returns `S_FALSE` in every
other case, and leaves the state (both counters included) as it was. -/
theorem DllCanUnloadNow_spec (s : State) :
    ((DllCanUnloadNow s).1 = S_OK ↔ (s.MAIN_nObjects = 0 ∧ s.MAIN_nServerLocks = 0)) ∧
    ((DllCanUnloadNow s).1 = S_FALSE ↔ ¬ (s.MAIN_nObjects = 0 ∧ s.MAIN_nServerLocks = 0)) ∧
    (DllCanUnloadNow s).2 = s := by
  unfold DllCanUnloadNow
  by_cases h1 : s.MAIN_nObjects = 0 <;> by_cases h2 : s.MAIN_nServerLocks = 0 <;>
    simp [h1, h2, S_OK, S_FALSE]

/-! ## `DllGetClassObject`: rejected requests -/

/-- C2 as stated fails: with the unregistered class identifier `{1-2-3-4}`, the
requested interface `IID_IUnknown` and a non-null output pointer,
`DllGetClassObject` returns `E_INVALIDARG`, which is not
`CLASS_E_CLASSNOTAVAILABLE`. -/
theorem DllGetClassObject_unregistered_IUnknown :
    (⟨1, 2, 3, 4⟩ : GUID) ≠ ⟨0xC747A836, 0x4884, 0x47B8, 0x8544002C41BD63D2⟩ ∧
    (DllGetClassObject ⟨0xC747A836, 0x4884, 0x47B8, 0x8544002C41BD63D2⟩ ⟨[IID_IUnknown]⟩ true
      ⟨1, 2, 3, 4⟩ IID_IUnknown (some none) State.initial).hr = E_INVALIDARG ∧
    E_INVALIDARG ≠ CLASS_E_CLASSNOTAVAILABLE := by
  decide

/-- C2 amended: for every class identifier other than the registered one and a
non-null output pointer, `DllGetClassObject` returns `CLASS_E_CLASSNOTAVAILABLE`
when the requested interface is `IID_IClassFactory` (and `E_INVALIDARG` for any
other requested interface); for every requested interface the output is null and
the state, both counters included, is unchanged. -/
theorem DllGetClassObject_unregistered (CLSID_WebpWICDecoder : GUID)
    (DecodeContainer : ComClass) (mem : Bool) (clsid iid : GUID) (v : PVOID) (s : State)
    (hclsid : clsid ≠ CLSID_WebpWICDecoder) :
    DllGetClassObject CLSID_WebpWICDecoder DecodeContainer mem clsid iid (some v) s =
      ⟨if iid = IID_IClassFactory then CLASS_E_CLASSNOTAVAILABLE else E_INVALIDARG,
        some none, s⟩ := by
  unfold DllGetClassObject
  by_cases hi : iid = IID_IClassFactory <;> simp [IsEqualGUID, hi, hclsid]

/-- Witness: the class `{1-2-3-4}` requested
from the initial state. -/
theorem DllGetClassObject_unregistered_witness :
    (⟨1, 2, 3, 4⟩ : GUID) ≠ ⟨0xC747A836, 0x4884, 0x47B8, 0x8544002C41BD63D2⟩ ∧
    DllGetClassObject ⟨0xC747A836, 0x4884, 0x47B8, 0x8544002C41BD63D2⟩ ⟨[IID_IUnknown]⟩ true
        ⟨1, 2, 3, 4⟩ IID_IClassFactory (some (some 5)) State.initial =
      ⟨CLASS_E_CLASSNOTAVAILABLE, some none, State.initial⟩ :=
  ⟨by decide,
    DllGetClassObject_unregistered ⟨0xC747A836, 0x4884, 0x47B8, 0x8544002C41BD63D2⟩
      ⟨[IID_IUnknown]⟩ true ⟨1, 2, 3, 4⟩ IID_IClassFactory (some 5) State.initial (by decide)⟩

/-- C3: for every class identifier, registered or not, and every requested interface
other than `IID_IClassFactory`, `DllGetClassObject` with a non-null output pointer
returns `E_INVALIDARG`, stores null in the output and leaves the whole state (both
counters and the heap, so no factory is constructed) unchanged; with a null output
pointer it returns `E_INVALIDARG` as well, whatever the identifiers. -/
theorem DllGetClassObject_wrong_interface (CLSID_WebpWICDecoder : GUID)
    (DecodeContainer : ComClass) (mem : Bool) (clsid iid : GUID) (v : PVOID) (s : State)
    (hiid : iid ≠ IID_IClassFactory) :
    DllGetClassObject CLSID_WebpWICDecoder DecodeContainer mem clsid iid (some v) s =
      ⟨E_INVALIDARG, some none, s⟩ ∧
    (∀ iid2 : GUID,
      DllGetClassObject CLSID_WebpWICDecoder DecodeContainer mem clsid iid2 none s =
        ⟨E_INVALIDARG, none, s⟩) := by
  constructor
  · unfold DllGetClassObject
    simp [IsEqualGUID, hiid]
  · intro iid2
    rfl

/-- Witness: the registered class requested
through `IID_IUnknown`. -/
theorem DllGetClassObject_wrong_interface_witness :
    IID_IUnknown ≠ IID_IClassFactory ∧
    DllGetClassObject ⟨0xC747A836, 0x4884, 0x47B8, 0x8544002C41BD63D2⟩ ⟨[IID_IUnknown]⟩ true
        ⟨0xC747A836, 0x4884, 0x47B8, 0x8544002C41BD63D2⟩ IID_IUnknown (some (some 5))
        State.initial =
      ⟨E_INVALIDARG, some none, State.initial⟩ :=
  ⟨by decide,
    (DllGetClassObject_wrong_interface ⟨0xC747A836, 0x4884, 0x47B8, 0x8544002C41BD63D2⟩
      ⟨[IID_IUnknown]⟩ true ⟨0xC747A836, 0x4884, 0x47B8, 0x8544002C41BD63D2⟩ IID_IUnknown
      (some 5) State.initial (by decide)).1⟩

/-! ## `CreateInstance`: aggregation -/

/-- C4 as stated fails: with a non-null outer reference and a null output pointer,
`CreateInstance` returns `E_INVALIDARG`, which is not `CLASS_E_NOAGGREGATION`. -/
theorem CreateInstance_outer_null_output :
    (MyClassFactory.CreateInstance ⟨0, ⟨[IID_IUnknown]⟩⟩ true (some 7) IID_IUnknown none
      State.initial).hr = E_INVALIDARG ∧
    E_INVALIDARG ≠ CLASS_E_NOAGGREGATION := by
  decide

/-- C4 amended: for every factory, every non-null outer reference and every requested
interface, `CreateInstance` called with a non-null output pointer returns
`CLASS_E_NOAGGREGATION` and stores null in the output, and called with a null output
pointer returns `E_INVALIDARG`; in both cases the whole state is unchanged
(`MAIN_nObjects` included, and no object is constructed), whether or not an
allocation would have succeeded. -/
theorem CreateInstance_aggregation (this : MyClassFactory) (mem : Bool) (pUnkOuter : PVOID)
    (riid : GUID) (v : PVOID) (s : State) (houter : pUnkOuter ≠ none) :
    MyClassFactory.CreateInstance this mem pUnkOuter riid (some v) s =
      ⟨CLASS_E_NOAGGREGATION, some none, s⟩ ∧
    MyClassFactory.CreateInstance this mem pUnkOuter riid none s =
      ⟨E_INVALIDARG, none, s⟩ := by
  constructor
  · unfold MyClassFactory.CreateInstance
    simp [houter]
  · rfl

/-- Witness: outer reference `7` on a factory of the
state reached by one `DllGetClassObject`. -/
theorem CreateInstance_aggregation_witness :
    (some 7 : PVOID) ≠ none ∧
    MyClassFactory.CreateInstance ⟨0, ⟨[IID_IUnknown]⟩⟩ true (some 7) IID_IUnknown (some (some 3))
        ⟨1, 0, [HeapCell.factory 1 ⟨0, ⟨[IID_IUnknown]⟩⟩]⟩ =
      ⟨CLASS_E_NOAGGREGATION, some none, ⟨1, 0, [HeapCell.factory 1 ⟨0, ⟨[IID_IUnknown]⟩⟩]⟩⟩ :=
  ⟨by decide,
    (CreateInstance_aggregation ⟨0, ⟨[IID_IUnknown]⟩⟩ true (some 7) IID_IUnknown (some 3)
      ⟨1, 0, [HeapCell.factory 1 ⟨0, ⟨[IID_IUnknown]⟩⟩]⟩ (by decide)).1⟩

/-! ## `CreateInstance`: construction -/

/-- C5: for every factory whose bound constructor succeeds and every requested
interface the constructed object does not support, `CreateInstance` with a null
outer reference and an output pointer returns `E_NOINTERFACE`, the caller's output
is null, the object just created (at the address the constructor returned) is
destroyed, and `MAIN_nObjects` and `MAIN_nServerLocks` are what they were before
the call. -/
theorem CreateInstance_unsupported_interface (this : MyClassFactory) (mem : Bool)
    (riid : GUID) (v : PVOID) (s : State)
    (hctor : (CreateComObject this.ctor_ mem s).1 = S_OK)
    (hriid : riid ∉ this.ctor_.supports)
    (hrange : isLONG s.MAIN_nObjects) :
    MyClassFactory.CreateInstance this mem none riid (some v) s =
      ⟨E_NOINTERFACE, some none,
        ⟨s.MAIN_nObjects, s.MAIN_nServerLocks, s.heap ++ [HeapCell.freed]⟩⟩ ∧
    (CreateComObject this.ctor_ mem s).2.1 = some s.heap.length ∧
    (MyClassFactory.CreateInstance this mem none riid (some v) s).st.cell s.heap.length =
      HeapCell.freed := by
  have hmem := CreateComObject_ok_mem this.ctor_ mem s hctor
  subst hmem
  have hc : this.ctor_.supports.contains riid = false := by simpa using hriid
  rw [CreateInstance_unsupported_eval this riid v s hc,
    InterlockedDecrement_Increment _ hrange, CreateComObject_mem]
  exact ⟨rfl, rfl, cell_append_last _ _ _ _⟩

/-- Witness: a factory for a class that
answers to `IID_IUnknown` only, asked for `IID_IClassFactory` while one factory is
alive. -/
theorem CreateInstance_unsupported_interface_witness :
    (CreateComObject ⟨[IID_IUnknown]⟩ true
      ⟨1, 0, [HeapCell.factory 1 ⟨0, ⟨[IID_IUnknown]⟩⟩]⟩).1 = S_OK ∧
    IID_IClassFactory ∉ [IID_IUnknown] ∧
    isLONG 1 ∧
    MyClassFactory.CreateInstance ⟨0, ⟨[IID_IUnknown]⟩⟩ true none IID_IClassFactory (some (some 9))
        ⟨1, 0, [HeapCell.factory 1 ⟨0, ⟨[IID_IUnknown]⟩⟩]⟩ =
      ⟨E_NOINTERFACE, some none,
        ⟨1, 0, [HeapCell.factory 1 ⟨0, ⟨[IID_IUnknown]⟩⟩, HeapCell.freed]⟩⟩ :=
  ⟨by decide, by decide, by decide,
    (CreateInstance_unsupported_interface ⟨0, ⟨[IID_IUnknown]⟩⟩ true IID_IClassFactory (some 9)
      ⟨1, 0, [HeapCell.factory 1 ⟨0, ⟨[IID_IUnknown]⟩⟩]⟩ (by decide) (by decide) (by decide)).1⟩

/-- C8: for every factory and every requested interface the constructed object
supports, a `CreateInstance` call with a null outer reference whose bound
constructor succeeds returns `S_OK`, applies exactly one increment to
`MAIN_nObjects` (so it goes from 1 to 2, and from `n` to `n + 1` below the largest
`LONG`), leaves `MAIN_nServerLocks` alone, and hands the caller the address of the
new object, whose reference count after the call is 1. -/
theorem CreateInstance_supported_interface (this : MyClassFactory) (mem : Bool)
    (riid : GUID) (v : PVOID) (s : State)
    (hctor : (CreateComObject this.ctor_ mem s).1 = S_OK)
    (hriid : riid ∈ this.ctor_.supports) :
    MyClassFactory.CreateInstance this mem none riid (some v) s =
      ⟨S_OK, some (some s.heap.length),
        ⟨InterlockedIncrement s.MAIN_nObjects, s.MAIN_nServerLocks,
          s.heap ++ [HeapCell.object ⟨this.ctor_, 1⟩]⟩⟩ ∧
    (MyClassFactory.CreateInstance this mem none riid (some v) s).st.cell s.heap.length =
      HeapCell.object ⟨this.ctor_, 1⟩ ∧
    (s.MAIN_nObjects = 1 →
      (MyClassFactory.CreateInstance this mem none riid (some v) s).st.MAIN_nObjects = 2) ∧
    (LONG_MIN ≤ s.MAIN_nObjects → s.MAIN_nObjects < LONG_MAX →
      (MyClassFactory.CreateInstance this mem none riid (some v) s).st.MAIN_nObjects =
        s.MAIN_nObjects + 1) := by
  have hmem := CreateComObject_ok_mem this.ctor_ mem s hctor
  subst hmem
  have hc : this.ctor_.supports.contains riid = true := by simpa using hriid
  rw [CreateInstance_supported_eval this riid v s hc]
  refine ⟨rfl, cell_append_last _ _ _ _, ?_, ?_⟩
  · intro h1
    show InterlockedIncrement s.MAIN_nObjects = 2
    rw [h1]
    decide
  · intro h1 h2
    exact InterlockedIncrement_of_lt _ h1 h2

/-- Witness: with one live factory (the
state reached by `DllGetClassObject` from the initial state) a construction through
`IID_IUnknown` takes `MAIN_nObjects` from 1 to 2 and the new object holds one
reference. -/
theorem CreateInstance_supported_interface_witness :
    (CreateComObject ⟨[IID_IUnknown]⟩ true
      ⟨1, 0, [HeapCell.factory 1 ⟨0, ⟨[IID_IUnknown]⟩⟩]⟩).1 = S_OK ∧
    IID_IUnknown ∈ [IID_IUnknown] ∧
    MyClassFactory.CreateInstance ⟨0, ⟨[IID_IUnknown]⟩⟩ true none IID_IUnknown (some (some 9))
        ⟨1, 0, [HeapCell.factory 1 ⟨0, ⟨[IID_IUnknown]⟩⟩]⟩ =
      ⟨S_OK, some (some 1),
        ⟨2, 0, [HeapCell.factory 1 ⟨0, ⟨[IID_IUnknown]⟩⟩,
          HeapCell.object ⟨⟨[IID_IUnknown]⟩, 1⟩]⟩⟩ :=
  ⟨by decide, by decide,
    (CreateInstance_supported_interface ⟨0, ⟨[IID_IUnknown]⟩⟩ true IID_IUnknown (some 9)
      ⟨1, 0, [HeapCell.factory 1 ⟨0, ⟨[IID_IUnknown]⟩⟩]⟩ (by decide) (by decide)).1⟩

/-- C10: when the allocation inside the bound constructor fails, `CreateComObject`
returns `E_OUTOFMEMORY` and `CreateInstance` with a null outer reference returns that
same code, stores null in the caller's output and leaves the whole state as it was
(`MAIN_nObjects`, `MAIN_nServerLocks` and every heap cell, the factory's reference
count included); likewise `DllGetClassObject` for the registered class returns
`E_OUTOFMEMORY` with a null output and an unchanged state when the allocation of the
factory fails. -/
theorem out_of_memory_no_side_effect (CLSID_WebpWICDecoder : GUID)
    (DecodeContainer : ComClass) (this : MyClassFactory) (riid : GUID) (v : PVOID)
    (s : State) :
    (CreateComObject this.ctor_ false s).1 = E_OUTOFMEMORY ∧
    MyClassFactory.CreateInstance this false none riid (some v) s =
      ⟨(CreateComObject this.ctor_ false s).1, some none, s⟩ ∧
    MyClassFactory.CreateInstance this false none riid (some v) s =
      ⟨E_OUTOFMEMORY, some none, s⟩ ∧
    DllGetClassObject CLSID_WebpWICDecoder DecodeContainer false CLSID_WebpWICDecoder
        IID_IClassFactory (some v) s =
      ⟨E_OUTOFMEMORY, some none, s⟩ := by
  have hF : FAILED E_OUTOFMEMORY = true := by decide
  refine ⟨by rw [CreateComObject_no_mem], ?_, ?_, ?_⟩
  · simp [MyClassFactory.CreateInstance, CreateComObject_no_mem, hF]
  · simp [MyClassFactory.CreateInstance, CreateComObject_no_mem, hF]
  · simp [DllGetClassObject, IsEqualGUID, MyClassFactory.new]

/-! ## `DllGetClassObject`: the registered class -/

theorem lockServerCalls_append (a b : List Int) (s : State) :
    lockServerCalls (a ++ b) s = lockServerCalls b (lockServerCalls a s) := by
  simp [lockServerCalls, List.foldl_append]

theorem isLONG_wrapLONG (x : Int) : isLONG (wrapLONG x) := by
  unfold isLONG LONG_MIN LONG_MAX wrapLONG
  omega

theorem lockServerCalls_lock (k : Nat) (s : State) (h : isLONG s.MAIN_nServerLocks) :
    lockServerCalls (List.replicate k TRUE) s =
      { s with MAIN_nServerLocks := wrapLONG (s.MAIN_nServerLocks + k) } := by
  induction k generalizing s with
  | zero =>
    cases s
    simp [lockServerCalls, wrapLONG_of_isLONG _ h]
  | succ n ih =>
    have hstep : (MyClassFactory.LockServer TRUE s).2 =
        { s with MAIN_nServerLocks := wrapLONG (s.MAIN_nServerLocks + 1) } := by
      simp [MyClassFactory.LockServer, TRUE, InterlockedIncrement]
    have hrec := ih { s with MAIN_nServerLocks := wrapLONG (s.MAIN_nServerLocks + 1) }
      (isLONG_wrapLONG _)
    simp only [lockServerCalls, List.replicate_succ, List.foldl_cons] at hrec ⊢
    rw [hstep, hrec]
    simp only [State.mk.injEq, and_true, true_and]
    unfold wrapLONG
    push_cast
    omega

theorem lockServerCalls_unlock (k : Nat) (s : State) (h : isLONG s.MAIN_nServerLocks) :
    lockServerCalls (List.replicate k FALSE) s =
      { s with MAIN_nServerLocks := wrapLONG (s.MAIN_nServerLocks - k) } := by
  induction k generalizing s with
  | zero =>
    cases s
    simp [lockServerCalls, wrapLONG_of_isLONG _ h]
  | succ n ih =>
    have hstep : (MyClassFactory.LockServer FALSE s).2 =
        { s with MAIN_nServerLocks := wrapLONG (s.MAIN_nServerLocks - 1) } := by
      simp [MyClassFactory.LockServer, FALSE, InterlockedDecrement]
    have hrec := ih { s with MAIN_nServerLocks := wrapLONG (s.MAIN_nServerLocks - 1) }
      (isLONG_wrapLONG _)
    simp only [lockServerCalls, List.replicate_succ, List.foldl_cons] at hrec ⊢
    rw [hstep, hrec]
    simp only [State.mk.injEq, and_true, true_and]
    unfold wrapLONG
    push_cast
    omega

/-- The counter after `a` locks followed by `b` unlocks. -/
theorem lockServerCalls_lock_unlock (a b : Nat) (s : State)
    (h : isLONG s.MAIN_nServerLocks) :
    lockServerCalls (List.replicate a TRUE ++ List.replicate b FALSE) s =
      { s with MAIN_nServerLocks := wrapLONG (s.MAIN_nServerLocks + a - b) } := by
  rw [lockServerCalls_append, lockServerCalls_lock a s h,
    lockServerCalls_unlock b _ (isLONG_wrapLONG _)]
  simp only [State.mk.injEq, and_true, true_and]
  unfold wrapLONG
  omega

theorem take_lockThenUnlock (N k : Nat) :
    (lockThenUnlock N).take k =
      List.replicate (min k N) TRUE ++ List.replicate (min (k - N) N) FALSE := by
  simp [lockThenUnlock, List.take_append_eq_append_take, List.take_replicate]

/-- C6 as stated fails: starting from `MAIN_nServerLocks = 2147483647` (a
non-negative count), the first of the `N = 1` calls `LockServer(TRUE)` wraps the
32-bit counter to `-2147483648`: the counter is negative at that point of the
sequence and the call did not change it by `+1`. -/
theorem LockServer_wraps_at_LONG_MAX :
    (0 : Int) ≤ (⟨0, 2147483647, []⟩ : State).MAIN_nServerLocks ∧
    (MyClassFactory.LockServer TRUE ⟨0, 2147483647, []⟩).2.MAIN_nServerLocks = -2147483648 ∧
    (lockServerCalls ((lockThenUnlock 1).take 1) ⟨0, 2147483647, []⟩).MAIN_nServerLocks < 0 ∧
    (MyClassFactory.LockServer TRUE ⟨0, 2147483647, []⟩).2.MAIN_nServerLocks ≠
      (⟨0, 2147483647, []⟩ : State).MAIN_nServerLocks + 1 := by
  decide

/-- C6 amended: for every `N` and every starting value of the 32-bit counter
`MAIN_nServerLocks`, `N` calls `LockServer(TRUE)` followed by `N` calls
`LockServer(FALSE)` give back the starting state.  The counter is non-negative
after every prefix of the sequence exactly when the starting value is non-negative
and at most `2147483647 - N`.  Every `LockServer` call, in any state, returns `S_OK`
and leaves `MAIN_nObjects` and the heap unchanged; it changes `MAIN_nServerLocks`
by exactly `+1` for `TRUE` (any non-zero argument) exactly when the counter is
below `2147483647`, and by exactly `-1` for `FALSE` exactly when it is above
`-2147483648`. -/
theorem LockServer_balanced (N : Nat) (s : State) (hs : isLONG s.MAIN_nServerLocks) :
    lockServerCalls (lockThenUnlock N) s = s ∧
    ((∀ k : Nat, 0 ≤ (lockServerCalls ((lockThenUnlock N).take k) s).MAIN_nServerLocks) ↔
      (0 ≤ s.MAIN_nServerLocks ∧ s.MAIN_nServerLocks + N ≤ LONG_MAX)) ∧
    (∀ (fLock : Int) (t : State),
      (MyClassFactory.LockServer fLock t).1 = S_OK ∧
      (MyClassFactory.LockServer fLock t).2.MAIN_nObjects = t.MAIN_nObjects ∧
      (MyClassFactory.LockServer fLock t).2.heap = t.heap) ∧
    (∀ (fLock : Int) (t : State), fLock ≠ FALSE → isLONG t.MAIN_nServerLocks →
      ((MyClassFactory.LockServer fLock t).2.MAIN_nServerLocks = t.MAIN_nServerLocks + 1 ↔
        t.MAIN_nServerLocks < LONG_MAX)) ∧
    (∀ t : State, isLONG t.MAIN_nServerLocks →
      ((MyClassFactory.LockServer FALSE t).2.MAIN_nServerLocks = t.MAIN_nServerLocks - 1 ↔
        LONG_MIN < t.MAIN_nServerLocks)) := by
  have hs2 := hs
  unfold isLONG LONG_MIN LONG_MAX at hs2
  refine ⟨?_, ?_, ?_, ?_, ?_⟩
  · rw [lockThenUnlock, lockServerCalls_lock_unlock N N s hs]
    cases s
    simp only [State.mk.injEq, and_true, true_and]
    unfold wrapLONG
    simp only at hs2
    omega
  · constructor
    · intro hall
      have h0 := hall 0
      simp [lockServerCalls] at h0
      refine ⟨h0, ?_⟩
      by_contra hcon
      unfold LONG_MAX at hcon
      have hk := hall (2147483648 - s.MAIN_nServerLocks).toNat
      rw [take_lockThenUnlock, lockServerCalls_lock_unlock _ _ s hs] at hk
      simp only [wrapLONG] at hk
      omega
    · rintro ⟨h0, hN⟩ k
      unfold LONG_MAX at hN
      rw [take_lockThenUnlock, lockServerCalls_lock_unlock _ _ s hs]
      simp only [wrapLONG]
      omega
  · intro fLock t
    unfold MyClassFactory.LockServer
    by_cases hf : fLock = 0 <;> simp [hf]
  · intro fLock t hf ht
    have hf0 : fLock ≠ 0 := hf
    unfold isLONG LONG_MIN LONG_MAX at ht
    simp only [MyClassFactory.LockServer, hf0, ne_eq, not_false_eq_true, ↓reduceIte,
      InterlockedIncrement, wrapLONG, LONG_MAX]
    omega
  · intro t ht
    unfold isLONG LONG_MIN LONG_MAX at ht
    simp only [MyClassFactory.LockServer, FALSE, ne_eq, not_true_eq_false, ↓reduceIte,
      InterlockedDecrement, wrapLONG, LONG_MIN]
    omega

/-- Witness: one lock and one unlock starting from the largest `LONG`, where the
counter wraps on the way and still comes back. -/
theorem LockServer_balanced_witness :
    isLONG 2147483647 ∧
    lockServerCalls (lockThenUnlock 1) ⟨2, 2147483647, []⟩ = ⟨2, 2147483647, []⟩ :=
  ⟨by decide, (LockServer_balanced 1 ⟨2, 2147483647, []⟩ (by decide)).1⟩


/-! ## The whole life cycle -/

theorem step_construct (fac : Nat) (riid : GUID) (c : Int) (f : MyClassFactory) (o : PVOID)
    (s : State) (hfac : s.cell fac = HeapCell.factory c f) :
    PairThread.step fac riid ⟨0, o⟩ s =
      (⟨1, some s.heap.length⟩,
        ⟨InterlockedIncrement s.MAIN_nObjects, s.MAIN_nServerLocks,
          s.heap ++ [HeapCell.object ⟨f.ctor_, 1⟩]⟩) := by
  simp [PairThread.step, hfac, CreateComObject_mem]

theorem step_query (fac : Nat) (riid : GUID) (T : ComClass) (a : Nat) (s : State)
    (hcell : s.cell a = HeapCell.object ⟨T, 1⟩) (hriid : riid ∈ T.supports) :
    PairThread.step fac riid ⟨1, some a⟩ s =
      (⟨2, some a⟩, s.setCell a (HeapCell.object ⟨T, 2⟩)) := by
  have hc : T.supports.contains riid = true := by simpa using hriid
  have h12 : InterlockedIncrement 1 = 2 := by decide
  simp [PairThread.step, IUnknown.QueryInterface, hcell, ComObject.QueryInterface, hc,
    ComObjectBase.AddRef, h12, hriid]

theorem step_release (fac : Nat) (riid : GUID) (T : ComClass) (a : Nat) (s : State)
    (hcell : s.cell a = HeapCell.object ⟨T, 2⟩) :
    PairThread.step fac riid ⟨2, some a⟩ s =
      (⟨3, some a⟩, s.setCell a (HeapCell.object ⟨T, 1⟩)) := by
  have h21 : InterlockedDecrement 2 = 1 := by decide
  simp [PairThread.step, IUnknown.Release, ComObjectBase.Release, hcell, h21]

/-- The first three steps of a pair are the successful `CreateInstance` call: they
lead to the state that call returns, and the pointer they leave in `output` is the
one the call stores for the caller. -/
theorem CreateInstance_as_steps (fac : Nat) (c : Int) (f : MyClassFactory) (riid : GUID)
    (s : State) (hfac : s.cell fac = HeapCell.factory c f)
    (hriid : riid ∈ f.ctor_.supports) :
    let r1 := PairThread.step fac riid ⟨0, none⟩ s
    let r2 := PairThread.step fac riid r1.1 r1.2
    let r3 := PairThread.step fac riid r2.1 r2.2
    r3.2 = (MyClassFactory.CreateInstance f true none riid (some none) s).st ∧
    some r3.1.output = (MyClassFactory.CreateInstance f true none riid (some none) s).out ∧
    r3.1.pc = 3 := by
  have hc : f.ctor_.supports.contains riid = true := by simpa using hriid
  simp only [step_construct fac riid c f none s hfac]
  rw [step_query fac riid f.ctor_ s.heap.length _ (cell_append_last _ _ _ _) hriid]
  simp only [setCell_append_last]
  rw [step_release fac riid f.ctor_ s.heap.length _ (cell_append_last _ _ _ _)]
  rw [CreateInstance_supported_eval f riid none s hc]
  simp [setCell_append_last]

end WebpWic
